import Mathlib

/-!
Verification of the KSP command-line calculator (`src/main.py`).

The program is a set of pure physics formulas over two static, read-only
tables (celestial bodies and engines), wrapped in a thin CLI dispatcher.
We embed the tables and formulas shallowly: all table constants are exact
decimals, so the data model lives in `ℚ`; the formulas that use `log` and
`sqrt` are stated over `ℝ` with the table values coerced.
-/

namespace KspTools

/-- Kerbal g0 value, the constant `KSP_G0 = 9.82` from the source. -/
def KSP_G0 : ℚ := 9.82

/-- Celestial bodies present in the static table `KSP_BODIES`. -/
inductive Body where
  | kerbin
  | mun
  deriving DecidableEq, Repr

/-- Record type of one entry of the `KSP_BODIES` table. -/
structure BodyInfo where
  g0 : ℚ
  std_grav_param : ℚ
  radius : ℚ
  deriving DecidableEq, Repr

/-- Static body table `KSP_BODIES` from the source, keyed by body. -/
def KSP_BODIES : Body → BodyInfo
  | .kerbin => { g0 := 9.82, std_grav_param := 3.5316423e12, radius := 600000 }
  | .mun => { g0 := 1.66, std_grav_param := 6.5139178e10, radius := 200000 }

/-- Engines present in the static table `KSP_ENGINES`. -/
inductive Engine where
  | lv_t30
  | lv_t45
  | lv_909
  deriving DecidableEq, Repr

/-- Record type of one entry of the `KSP_ENGINES` table. -/
structure EngineInfo where
  isp_atm : ℚ
  isp_vac : ℚ
  mass : ℚ
  thrust_atm : ℚ
  thrust_vac : ℚ
  deriving DecidableEq, Repr

/-- Static engine table `KSP_ENGINES` from the source, keyed by engine. -/
def KSP_ENGINES : Engine → EngineInfo
  | .lv_t30 =>
    { isp_atm := 265.0, isp_vac := 310.0, mass := 1.25,
      thrust_atm := 205.67e3, thrust_vac := 240.0e3 }
  | .lv_t45 =>
    { isp_atm := 250.0, isp_vac := 320.0, mass := 1.5,
      thrust_atm := 168.75e3, thrust_vac := 215.0e3 }
  | .lv_909 =>
    { isp_atm := 85.0, isp_vac := 345.0, mass := 0.5,
      thrust_atm := 14.753e3, thrust_vac := 60.0e3 }

/-- Tsiolkovsky delta-v, the function `_dv` from the source:
`isp * KSP_G0 * log(full / empty)`. -/
noncomputable def _dv (empty full isp : ℝ) : ℝ :=
  isp * (KSP_G0 : ℝ) * Real.log (full / empty)

/-- Thrust-to-weight ratio, the function `_twr` from the source:
`thrust / (mass * 1000 * KSP_BODIES[body].g0)`. -/
def _twr (body : Body) (mass thrust : ℚ) : ℚ :=
  thrust / (mass * 1000 * (KSP_BODIES body).g0)

/-- Circular orbit speed, the function `_orbital_spd` from the source:
`sqrt(KSP_BODIES[body].std_grav_param / (KSP_BODIES[body].radius + height))`. -/
noncomputable def _orbital_spd (body : Body) (height : ℝ) : ℝ :=
  Real.sqrt (((KSP_BODIES body).std_grav_param : ℝ)
    / (((KSP_BODIES body).radius : ℝ) + height))

/-- Aggregate engine statistics, the function `_engine_stats` from the
source: `(thr_atm, thr_vac, isp_atm, isp_vac)` where the thrusts are sums
of the rated thrusts and each combined isp is total thrust divided by
total mass flow, mass flow of an engine being `thrust / isp`. -/
def _engine_stats (engines : List Engine) : ℚ × ℚ × ℚ × ℚ :=
  let thr_sum := fun (thrust : EngineInfo → ℚ) =>
    (engines.map fun e => thrust (KSP_ENGINES e)).sum
  let flow_sum := fun (thrust isp : EngineInfo → ℚ) =>
    (engines.map fun e => thrust (KSP_ENGINES e) / isp (KSP_ENGINES e)).sum
  let thr_atm := thr_sum (·.thrust_atm)
  let thr_vac := thr_sum (·.thrust_vac)
  let isp_atm := thr_atm / flow_sum (·.thrust_atm) (·.isp_atm)
  let isp_vac := thr_vac / flow_sum (·.thrust_vac) (·.isp_vac)
  (thr_atm, thr_vac, isp_atm, isp_vac)

/-- Combined engine mass of a selection, `sum(KSP_ENGINES[e]['mass'])`
from the body of the `stage` command. -/
def eng_mass (engines : List Engine) : ℚ :=
  (engines.map fun e => (KSP_ENGINES e).mass).sum

/-- Stage dry mass, `dry = payload + eng_mass + tank_dry * n_tanks` from
the body of the `stage` command. -/
def stage_dry (payload tank_dry n_tanks : ℚ) (engines : List Engine) : ℚ :=
  payload + eng_mass engines + tank_dry * n_tanks

/-- Stage full mass, `full = payload + eng_mass + tank_full * n_tanks`
from the body of the `stage` command. -/
def stage_full (payload tank_full n_tanks : ℚ) (engines : List Engine) : ℚ :=
  payload + eng_mass engines + tank_full * n_tanks

/-- Vacuum mass flow of an engine, the computation of the `mass_flow`
command: `thrust_vac / (isp_vac * KSP_G0)`. -/
def mass_flow_val (e : Engine) : ℚ :=
  (KSP_ENGINES e).thrust_vac / ((KSP_ENGINES e).isp_vac * KSP_G0)

/-- Round a rational to the nearest integer, ties to even, which is the
rounding rule used by Python's built-in `round`. -/
def round_half_even (q : ℚ) : ℤ :=
  if q - ⌊q⌋ < 1 / 2 then ⌊q⌋
  else if q - ⌊q⌋ > 1 / 2 then ⌊q⌋ + 1
  else if Even ⌊q⌋ then ⌊q⌋ else ⌊q⌋ + 1

/-- Python's `round(q, 3)`: round to three decimal places, ties to even. -/
def py_round3 (q : ℚ) : ℚ :=
  (round_half_even (q * 1000) : ℚ) / 1000

/-- Value printed by the `mass_flow` command: the vacuum mass flow rounded
to three decimal places (`round(result, 3)` in the source). -/
def mass_flow_printed (e : Engine) : ℚ :=
  py_round3 (mass_flow_val e)

/-- Keys of the `KSP_BODIES` table, against which the CLI validates a
`body` argument (`click.Choice(KSP_BODIES.keys())`). -/
def parse_body (s : String) : Option Body :=
  if s = "kerbin" then some .kerbin
  else if s = "mun" then some .mun
  else none

/-- Keys of the `KSP_ENGINES` table, against which the CLI validates an
`engines` argument (`click.Choice(KSP_ENGINES.keys())`). -/
def parse_engine (s : String) : Option Engine :=
  if s = "lv-t30" then some .lv_t30
  else if s = "lv-t45" then some .lv_t45
  else if s = "lv-909" then some .lv_909
  else none

/-- Outcome of one CLI invocation: the process exit code and the printed
result, `none` when the invocation was rejected before computing. -/
structure CmdResult (α : Type) where
  exit_code : ℕ
  printed : Option α
  deriving Repr

/-- Modelled from the spec: the argument-validation layer of the CLI
framework (the `click` dependency, not part of this repository) rejects a
`click.Choice` argument outside its enumeration before the command body
runs, exits with a non-zero status (usage error, code 2) and prints no
result. The `twr` command validates `body` against the keys of
`KSP_BODIES` and, on success, prints `_twr(body, mass, thrust)`. -/
def twr_cmd (body : String) (mass thrust : ℚ) : CmdResult ℚ :=
  match parse_body body with
  | none => { exit_code := 2, printed := none }
  | some b => { exit_code := 0, printed := some (_twr b mass thrust) }

/-- Result lines printed by a successful `stage` invocation. -/
structure StageOutput where
  dry : ℚ
  full : ℚ
  dv_atm : ℝ
  dv_vac : ℝ
  twr_atm : ℚ
  twr_vac : ℚ

/-- Validation of a list of engine-name arguments: every name must be a
key of the `KSP_ENGINES` table, otherwise the whole list is rejected. -/
def parse_engines : List String → Option (List Engine)
  | [] => some []
  | s :: rest =>
    match parse_engine s, parse_engines rest with
    | some e, some es => some (e :: es)
    | _, _ => none

/-- Modelled from the spec: the `stage` command validates every name in
`engines` against the keys of `KSP_ENGINES` and `body` against the keys
of `KSP_BODIES` (`click.Choice`), requires at least one engine
(`nargs=-1, required=True`), and rejects the invocation with a non-zero
exit status and no output before any arithmetic otherwise; on success its
body computes the engine mass, the aggregate engine stats, the dry and
full masses, and prints them with the delta-v and TWR figures. -/
noncomputable def stage_cmd (payload tank_dry tank_full n_tanks : ℚ)
    (engines : List String) (body : String) : CmdResult StageOutput :=
  match parse_engines engines, parse_body body with
  | some es, some b =>
    if es = [] then { exit_code := 2, printed := none }
    else
      let stats := _engine_stats es
      let dry := stage_dry payload tank_dry n_tanks es
      let full := stage_full payload tank_full n_tanks es
      { exit_code := 0,
        printed := some
          { dry := dry, full := full,
            dv_atm := _dv (dry : ℝ) (full : ℝ) ((stats.2.2.1 : ℝ)),
            dv_vac := _dv (dry : ℝ) (full : ℝ) ((stats.2.2.2 : ℝ)),
            twr_atm := _twr b full stats.1,
            twr_vac := _twr b full stats.2.1 } }
  | _, _ => { exit_code := 2, printed := none }

/-- Subcommands registered on the `cli` group, in registration order: the
Python function names passed to the `cli.add_command(...)` lines of the
source. -/
def cli_commands : List String :=
  ["dv", "twr", "stage", "mass_flow", "orbital_spd"]

/-- Helper: a list of engine names containing one name outside the
`KSP_ENGINES` table fails validation as a whole. -/
theorem parse_engines_none_of_mem {l : List String} {s : String}
    (hs : s ∈ l) (hn : parse_engine s = none) : parse_engines l = none := by
  induction l with
  | nil => cases hs
  | cons x xs ih =>
    rcases List.mem_cons.mp hs with h | h
    · subst h
      cases hpx : parse_engines xs <;> simp [parse_engines, hn, hpx]
    · cases hx : parse_engine x <;> simp [parse_engines, hx, ih h]

/-- C1, counterexample: `_twr` does not return `thrust / (mass * g0(body))`;
at body `kerbin`, mass `1` and thrust `9.82` it returns `0.001`, not `1`,
because the source divides by `mass * 1000 * g0`. -/
theorem twr_spec_formula_cex :
    _twr Body.kerbin 1 9.82 ≠ 9.82 / (1 * (KSP_BODIES Body.kerbin).g0) := by
  norm_num [_twr, KSP_BODIES]

/-- C1, amended: for every known body, mass and thrust, `_twr` returns
`thrust / (mass * 1000 * g0(body))` — the mass in tonnes is first scaled
by 1000 — with surface gravity 9.82 for kerbin and 1.66 for mun taken
from the static body table. -/
theorem twr_formula_amended :
    ∀ (body : Body) (mass thrust : ℚ),
      _twr body mass thrust = thrust / (mass * 1000 * (KSP_BODIES body).g0)
      ∧ (KSP_BODIES Body.kerbin).g0 = 9.82 ∧ (KSP_BODIES Body.mun).g0 = 1.66 := by
  intro body mass thrust
  exact ⟨rfl, rfl, rfl⟩

/-- C2: for `0 < empty < full` and `0 < isp`, the dv operation returns
exactly `isp * 9.82 * ln (full / empty)`, where the fixed constant
`KSP_G0` equals 9.82. -/
theorem dv_formula (empty full isp : ℝ)
    (h1 : 0 < empty) (h2 : empty < full) (h3 : 0 < isp) :
    _dv empty full isp = isp * 9.82 * Real.log (full / empty)
    ∧ KSP_G0 = 9.82 := by
  constructor
  · norm_num [_dv, KSP_G0]
  · rfl

/-- Witness for C2 at `empty = 1`, `full = 2`, `isp = 1`. -/
theorem dv_formula_witness :
    (0 : ℝ) < 1 ∧ (1 : ℝ) < 2 ∧ (0 : ℝ) < 1 ∧
    (_dv 1 2 1 = 1 * 9.82 * Real.log (2 / 1) ∧ KSP_G0 = 9.82) :=
  ⟨by norm_num, by norm_num, by norm_num,
    dv_formula 1 2 1 (by norm_num) (by norm_num) (by norm_num)⟩

/-- C3: for every non-empty engine selection, `_engine_stats` returns the
sums of the rated atmospheric and vacuum thrusts, and combined specific
impulses equal to total thrust over total mass flow where each engine's
mass flow is `thrust / isp`; and for any two engines of the table with
different isps, the combined isp of the pair lies strictly between the
two individual isps, in atmosphere and in vacuum. -/
theorem engine_stats_aggregation :
    (∀ engines : List Engine, engines ≠ [] →
      (_engine_stats engines).1
          = (engines.map fun e => (KSP_ENGINES e).thrust_atm).sum ∧
      (_engine_stats engines).2.1
          = (engines.map fun e => (KSP_ENGINES e).thrust_vac).sum ∧
      (_engine_stats engines).2.2.1
          = (engines.map fun e => (KSP_ENGINES e).thrust_atm).sum
            / (engines.map fun e =>
                (KSP_ENGINES e).thrust_atm / (KSP_ENGINES e).isp_atm).sum ∧
      (_engine_stats engines).2.2.2
          = (engines.map fun e => (KSP_ENGINES e).thrust_vac).sum
            / (engines.map fun e =>
                (KSP_ENGINES e).thrust_vac / (KSP_ENGINES e).isp_vac).sum) ∧
    (∀ e1 e2 : Engine,
      (KSP_ENGINES e1).isp_atm ≠ (KSP_ENGINES e2).isp_atm →
      min (KSP_ENGINES e1).isp_atm (KSP_ENGINES e2).isp_atm
          < (_engine_stats [e1, e2]).2.2.1 ∧
      (_engine_stats [e1, e2]).2.2.1
          < max (KSP_ENGINES e1).isp_atm (KSP_ENGINES e2).isp_atm) ∧
    (∀ e1 e2 : Engine,
      (KSP_ENGINES e1).isp_vac ≠ (KSP_ENGINES e2).isp_vac →
      min (KSP_ENGINES e1).isp_vac (KSP_ENGINES e2).isp_vac
          < (_engine_stats [e1, e2]).2.2.2 ∧
      (_engine_stats [e1, e2]).2.2.2
          < max (KSP_ENGINES e1).isp_vac (KSP_ENGINES e2).isp_vac) := by
  refine ⟨fun engines _ => ⟨rfl, rfl, rfl, rfl⟩, ?_, ?_⟩
  · intro e1 e2 h
    cases e1 <;> cases e2 <;>
      simp_all [_engine_stats, KSP_ENGINES] <;> norm_num
  · intro e1 e2 h
    cases e1 <;> cases e2 <;>
      simp_all [_engine_stats, KSP_ENGINES] <;> norm_num

/-- Witness for C3: the singleton selection `[lv_t30]` is non-empty with
combined atmospheric thrust the sum of its thrusts, and the pair
`lv_t30, lv_t45` has different vacuum isps with a combined vacuum isp
above the smaller one. -/
theorem engine_stats_aggregation_witness :
    (([Engine.lv_t30] : List Engine) ≠ []) ∧
    (_engine_stats [Engine.lv_t30]).1
        = ([Engine.lv_t30].map fun e => (KSP_ENGINES e).thrust_atm).sum ∧
    ((KSP_ENGINES Engine.lv_t30).isp_vac ≠ (KSP_ENGINES Engine.lv_t45).isp_vac) ∧
    min (KSP_ENGINES Engine.lv_t30).isp_vac (KSP_ENGINES Engine.lv_t45).isp_vac
        < (_engine_stats [Engine.lv_t30, Engine.lv_t45]).2.2.2 :=
  ⟨by simp,
    (engine_stats_aggregation.1 [Engine.lv_t30] (by simp)).1,
    by norm_num [KSP_ENGINES],
    (engine_stats_aggregation.2.2 Engine.lv_t30 Engine.lv_t45
      (by norm_num [KSP_ENGINES])).1⟩

/-- C4: with zero tanks, the total (full) stage mass computed by the
`stage` command is exactly `payload + eng_mass`, the engine mass being
the sum of the selected engines' dry masses. -/
theorem stage_no_tanks_mass :
    ∀ (payload tank_full : ℚ) (engines : List Engine),
      stage_full payload tank_full 0 engines = payload + eng_mass engines
      ∧ eng_mass engines = (engines.map fun e => (KSP_ENGINES e).mass).sum := by
  intro payload tank_full engines
  exact ⟨by simp [stage_full], rfl⟩

/-- C5: for every body of the table and every altitude, `_orbital_spd`
returns `sqrt (μ / (radius + altitude))` for the μ and radius recorded in
the table; for kerbin at altitude 0 this is
`sqrt (3.5316423e12 / 600000)`. -/
theorem orbital_spd_formula :
    ∀ (b : Body) (height : ℝ),
      _orbital_spd b height
        = Real.sqrt (((KSP_BODIES b).std_grav_param : ℝ)
            / (((KSP_BODIES b).radius : ℝ) + height))
      ∧ _orbital_spd Body.kerbin 0 = Real.sqrt (3.5316423e12 / 600000) := by
  intro b height
  refine ⟨rfl, ?_⟩
  norm_num [_orbital_spd, KSP_BODIES]

/-- C6: for `empty = full > 0` and `isp > 0` the dv operation returns 0
(no error is raised); and for `0 < full < empty` it returns a strictly
negative value, not clamped to zero. -/
theorem dv_boundary (empty isp : ℝ) (he : 0 < empty) (hi : 0 < isp) :
    _dv empty empty isp = 0 ∧
    ∀ full : ℝ, 0 < full → full < empty → _dv empty full isp < 0 := by
  constructor
  · simp [_dv, div_self (ne_of_gt he)]
  · intro full hf hlt
    have hlog : Real.log (full / empty) < 0 :=
      Real.log_neg (div_pos hf he) ((div_lt_one he).mpr hlt)
    have hpos : (0 : ℝ) < isp * ((KSP_G0 : ℚ) : ℝ) := by
      have : (0 : ℝ) < ((KSP_G0 : ℚ) : ℝ) := by norm_num [KSP_G0]
      exact mul_pos hi this
    exact mul_neg_of_pos_of_neg hpos hlog

/-- Witness for C6 at `empty = 100`, `isp = 300`, `full = 50`. -/
theorem dv_boundary_witness :
    (0 : ℝ) < 100 ∧ (0 : ℝ) < 300 ∧ _dv 100 100 300 = 0 ∧
    ((0 : ℝ) < 50 ∧ (50 : ℝ) < 100 ∧ _dv 100 50 300 < 0) :=
  ⟨by norm_num, by norm_num,
    (dv_boundary 100 300 (by norm_num) (by norm_num)).1,
    by norm_num, by norm_num,
    (dv_boundary 100 300 (by norm_num) (by norm_num)).2 50
      (by norm_num) (by norm_num)⟩

/-- C7: an invocation naming a body outside the `KSP_BODIES` table, or an
engine outside the `KSP_ENGINES` table, is rejected before any formula
arithmetic runs: the process exit code is non-zero and no result is
printed, for the `twr` command and for the `stage` command. -/
theorem cli_unknown_rejected :
    (∀ (body : String) (mass thrust : ℚ), parse_body body = none →
      (twr_cmd body mass thrust).exit_code ≠ 0 ∧
      (twr_cmd body mass thrust).printed = none) ∧
    (∀ (payload tank_dry tank_full n_tanks : ℚ) (engines : List String)
        (body : String),
      (parse_body body = none ∨ ∃ s ∈ engines, parse_engine s = none) →
      (stage_cmd payload tank_dry tank_full n_tanks engines body).exit_code ≠ 0 ∧
      (stage_cmd payload tank_dry tank_full n_tanks engines body).printed = none) := by
  constructor
  · intro body mass thrust hb
    simp [twr_cmd, hb]
  · intro payload tank_dry tank_full n_tanks engines body h
    rcases h with hb | ⟨s, hs, hn⟩
    · cases hx : parse_engines engines <;> simp [stage_cmd, hx, hb]
    · have hne := parse_engines_none_of_mem hs hn
      cases hb : parse_body body <;> simp [stage_cmd, hne, hb]

/-- Witness for C7: `twr` invoked with the unknown body `duna`, and
`stage` invoked with the unknown engine `rapier`, both exit non-zero and
print nothing. -/
theorem cli_unknown_rejected_witness :
    parse_body "duna" = none ∧
    (twr_cmd "duna" 1 1).exit_code ≠ 0 ∧
    (twr_cmd "duna" 1 1).printed = none ∧
    parse_engine "rapier" = none ∧
    (stage_cmd 1 0 0 0 ["rapier"] "kerbin").exit_code ≠ 0 ∧
    (stage_cmd 1 0 0 0 ["rapier"] "kerbin").printed = none :=
  ⟨rfl,
    (cli_unknown_rejected.1 "duna" 1 1 rfl).1,
    (cli_unknown_rejected.1 "duna" 1 1 rfl).2,
    rfl,
    (cli_unknown_rejected.2 1 0 0 0 ["rapier"] "kerbin"
      (Or.inr ⟨"rapier", by simp, rfl⟩)).1,
    (cli_unknown_rejected.2 1 0 0 0 ["rapier"] "kerbin"
      (Or.inr ⟨"rapier", by simp, rfl⟩)).2⟩

/-- C8: for every body, positive mass and positive factor `c`, `_twr` is
additive and homogeneous in thrust and inversely proportional to mass. -/
theorem twr_linear (b : Body) (m t1 t2 c : ℚ) (hm : 0 < m) (hc : 0 < c) :
    _twr b m (t1 + t2) = _twr b m t1 + _twr b m t2 ∧
    _twr b m (c * t1) = c * _twr b m t1 ∧
    _twr b (c * m) t1 = _twr b m t1 / c := by
  unfold _twr
  refine ⟨add_div _ _ _, by rw [mul_div_assoc], ?_⟩
  rw [div_div]
  ring_nf

/-- Witness for C8 at kerbin, `m = 1`, `t1 = 3`, `t2 = 4`, `c = 2`. -/
theorem twr_linear_witness :
    (0 : ℚ) < 1 ∧ (0 : ℚ) < 2 ∧
    (_twr Body.kerbin 1 (3 + 4) = _twr Body.kerbin 1 3 + _twr Body.kerbin 1 4 ∧
     _twr Body.kerbin 1 (2 * 3) = 2 * _twr Body.kerbin 1 3 ∧
     _twr Body.kerbin (2 * 1) 3 = _twr Body.kerbin 1 3 / 2) :=
  ⟨by norm_num, by norm_num,
    twr_linear Body.kerbin 1 3 4 2 (by norm_num) (by norm_num)⟩

/-- C9: on a singleton engine selection, `_engine_stats` is the identity:
it returns that engine's rated thrusts and isps unchanged. -/
theorem engine_stats_singleton_id :
    ∀ e : Engine,
      _engine_stats [e]
        = ((KSP_ENGINES e).thrust_atm, (KSP_ENGINES e).thrust_vac,
           (KSP_ENGINES e).isp_atm, (KSP_ENGINES e).isp_vac) := by
  intro e
  cases e <;> norm_num [_engine_stats, KSP_ENGINES]

/-- C10: the dispatcher registers five subcommands, among them
`mass_flow`, which for every engine of the table computes
`thrust_vac / (isp_vac * 9.82)` and prints it rounded to three decimal
places. -/
theorem mass_flow_command :
    cli_commands.length = 5 ∧ "mass_flow" ∈ cli_commands ∧
    ∀ e : Engine,
      mass_flow_val e
        = (KSP_ENGINES e).thrust_vac / ((KSP_ENGINES e).isp_vac * 9.82) ∧
      mass_flow_printed e = py_round3 (mass_flow_val e) := by
  refine ⟨rfl, by simp [cli_commands], fun e => ⟨rfl, rfl⟩⟩

end KspTools
